import Mathlib

/-!
Shallow embedding of the task/thread lifecycle manager in `src/Tasks.py`
(class `Task`, a task control block of a simulated OS kernel), together
with the collaborator state it touches (privilege mode, CPU registers,
the live-task registry).  Collaborator classes that are not part of the
source file (`Globals`, `SimTask`, `Thread`, `Files`) are modelled from
the specification where their behaviour matters, and each such
definition says so in its doc comment.

Python object identity: `Thread` objects in the source never override
equality, so `is` and `==` coincide; threads spawned by one task carry
distinct ids.  We model a thread by its visible data (id and
non-preemptive flag), so value equality stands for object identity.
-/

namespace Tasks

/-- A thread, as constructed by `Thread(self.__nextThreadNum, self, self.__nonPreemptive)`
in `Task.spawn` (`src/Tasks.py:310`).  The owning-task back reference is dropped:
a thread is only ever stored inside its owner. -/
structure Thread where
  id : Nat
  nonPreemptive : Bool
deriving DecidableEq

/-- Task status values `Globals.TaskNew`, `Globals.TaskReady`, `Globals.TaskKill`. -/
inductive TaskStatus where
  | TaskNew
  | TaskReady
  | TaskKill
deriving DecidableEq

/-- The simulated CPU privilege mode (`Globals.getMode()`, `Globals.PrivilegedMode`,
`Globals.setUserMode()`). -/
inductive Mode where
  | privileged
  | user
deriving DecidableEq

/-- Modelled from the spec: configuration constants of the `Globals` collaborator
(`Globals.py` is not under `src/`).  The spec's external interface lists a configured
maximum task count (`getMaxNumTasks`) and a maximum thread count (`getMaxNumThreads`,
named by the instruction comment in `Task.spawn`). -/
structure GlobalsCfg where
  maxNumTasks : Nat
  maxNumThreads : Nat
deriving DecidableEq

/-- The task control block: the private instance fields initialized in
`Task.__init__` (`src/Tasks.py:126-159`).  The page table is owned but opaque
(its only use here is the `deallocatePages` teardown event); the swap file is
represented by its open-file-descriptor value. -/
structure Task where
  id : Nat
  user : Nat
  status : TaskStatus
  nonPreemptive : Bool
  priority : Int
  threadsList : List Thread
  nextThreadNum : Nat
  openFileDescriptor : List Nat
  activeThread : Option Thread
  swapFile : Nat
deriving DecidableEq

/-- `Task.__init__(id, user, nonPreemptive)` (`src/Tasks.py:126-159`).
Status starts at `TaskNew`, priority is `-1` when non-preemptive else `0`,
the thread list is empty, the thread-id counter is `0`, the active thread is
`None`.  Both branches of the lazy swap-file acquisition (reuse an existing
directory entry, or create a new file of size `2^addressBits` first) end by
opening the file and appending the resulting descriptor to the open-file list
and recording it as the swap file, so the task-local state is the same either
way; the descriptor value `swapFd` handed out by the file system is a
parameter. -/
def Task.init (id : Nat) (user : Nat) (nonPreemptive : Bool) (swapFd : Nat) : Task :=
  { id := id
    user := user
    status := TaskStatus.TaskNew
    nonPreemptive := nonPreemptive
    priority := if nonPreemptive then -1 else 0
    threadsList := []
    nextThreadNum := 0
    openFileDescriptor := [swapFd]
    activeThread := none
    swapFile := swapFd }

/-- `Task.getNumThreads` (`src/Tasks.py:417-427`): returns `self.__nextThreadNum`,
the thread-id counter, not the length of the thread list. -/
def Task.getNumThreads (t : Task) : Nat :=
  t.nextThreadNum

/-- `Task.addThread` (`src/Tasks.py:429-439`): unconditionally appends the thread
to the thread list. -/
def Task.addThread (t : Task) (th : Thread) : Task :=
  { t with threadsList := t.threadsList ++ [th] }

/-- `Task.removeThread` (`src/Tasks.py:441-469`): if the thread being removed is
the active thread, first set the active thread to `None`; then remove the first
matching entry from the thread list; a "not present" failure of the removal is
swallowed (the list is left unchanged). -/
def Task.removeThread (t : Task) (th : Thread) : Task :=
  let t1 := if t.activeThread = some th then { t with activeThread := none } else t
  { t1 with threadsList := t1.threadsList.erase th }

/-- `Task.removeOpenFile` (`src/Tasks.py:571-590`): remove the first matching
descriptor from the open-file list, swallowing a "not present" failure. -/
def Task.removeOpenFile (t : Task) (fd : Nat) : Task :=
  { t with openFileDescriptor := t.openFileDescriptor.erase fd }

/-- `Task.addOpenFile` (`src/Tasks.py:551-569`): append the descriptor only if it
is not already in the open-file list. -/
def Task.addOpenFile (t : Task) (fd : Nat) : Task :=
  if fd ∈ t.openFileDescriptor then t
  else { t with openFileDescriptor := t.openFileDescriptor ++ [fd] }

/-- Python exception classes relevant to `Task.setActiveThread`: the source
imports `SimException` (`src/Tasks.py:19`) but its raise statement constructs
the builtin `Exception` (`src/Tasks.py:537`). -/
inductive PyCls where
  | exceptionCls
  | simExceptionCls
deriving DecidableEq

/-- A raised Python exception: its class, the fixed text of its message, and the
value interpolated into the message (the offending thread). -/
structure PyErr where
  cls : PyCls
  msg : String
  offending : Option Thread
deriving DecidableEq

/-- `Task.setActiveThread` (`src/Tasks.py:506-537`): `None` always succeeds and
clears the active thread; a non-`None` thread is accepted only if it is in the
thread list, otherwise the source raises
`Exception(f"SimException: Thread DNE in List: {thread}")` — note the raised
class is the builtin `Exception`, not `SimException`. -/
def Task.setActiveThread (t : Task) (th : Option Thread) : Except PyErr Task :=
  match th with
  | none => Except.ok { t with activeThread := none }
  | some th =>
    if th ∈ t.threadsList then
      Except.ok { t with activeThread := some th }
    else
      Except.error
        { cls := PyCls.exceptionCls
          msg := "SimException: Thread DNE in List: "
          offending := some th }

/-- The post-state of a `setActiveThread` call: on an exception the call
propagates without having mutated the task, so the task is unchanged. -/
def Task.setActiveRun (t : Task) (th : Option Thread) : Task :=
  match Task.setActiveThread t th with
  | Except.ok t1 => t1
  | Except.error _ => t

/-- `Task.getThread` (`src/Tasks.py:471-491`): linear scan of the thread list by
thread id, `None` if absent. -/
def Task.getThread (t : Task) (id : Nat) : Option Thread :=
  t.threadsList.find? (fun x => x.id == id)

/-- `Task.spawn` (`src/Tasks.py:284-315`).  The source guard is
`Task.getNumThreads(self) < Globals.getMaxNumTasks()` — it reads the thread-id
counter and compares it against the maximum number of TASKS (`src/Tasks.py:309`),
even though the instruction comment above it names `getMaxNumThreads()`.  On
success a thread with id `nextThreadNum` inheriting the task's non-preemptive
flag is appended, the counter is incremented, and `setRescheduleNeeded` is
called (the returned Boolean); otherwise nothing happens.  The base-class call
`SimTask.spawn(self)` has no Task-local effect. -/
def Task.spawn (g : GlobalsCfg) (t : Task) : Task × Bool :=
  if Task.getNumThreads t < g.maxNumTasks then
    let newThread : Thread := { id := t.nextThreadNum, nonPreemptive := t.nonPreemptive }
    let t1 := Task.addThread t newThread
    ({ t1 with nextThreadNum := t1.nextThreadNum + 1 }, true)
  else
    (t, false)

/-- Observable collaborator calls made during task teardown. -/
inductive Ev where
  | threadKill (th : Thread)
  | fileClose (fd : Nat)
  | deallocPages
  | swapRm (fd : Nat)
deriving DecidableEq

/-- Modelled from the spec: `Thread.kill` (`Threads.py` is not under `src/`) kills
the thread and synchronously removes it from the owning task's thread collection
(self-deregistration, spec §4.5/§4.6), i.e. it calls the task's `removeThread`. -/
def threadKillCall (t : Task) (th : Thread) : Task :=
  Task.removeThread t th

/-- Modelled from the spec: `OpenFileDescriptor.close` (`Files.py` is not under
`src/`) closes the descriptor and synchronously removes it from the owning
task's open-file collection (self-deregistration, spec §4.5/§4.6), i.e. it
calls the task's `removeOpenFile`. -/
def fileCloseCall (t : Task) (fd : Nat) : Task :=
  Task.removeOpenFile t fd

/-- The thread-teardown loop of `Task.kill` (`src/Tasks.py:272-273`): the Python
slice `self.__threadsList[::-1]` is a reversed copy, so the loop runs over a
snapshot while each `i.kill()` self-deregisters from the live list.  The
snapshot is the argument here; each step emits a `threadKill` event and applies
the self-deregistration. -/
def killThreadsFrom : Task → List Thread → Task × List Ev
  | t, [] => (t, [])
  | t, th :: rest =>
    let t1 := threadKillCall t th
    let p := killThreadsFrom t1 rest
    (p.1, Ev.threadKill th :: p.2)

/-- The file-teardown loop of `Task.kill` (`src/Tasks.py:276-278`): iterates a
reversed copy of the open-file list, closing each descriptor, which
self-deregisters it from the live list. -/
def closeFilesFrom : Task → List Nat → Task × List Ev
  | t, [] => (t, [])
  | t, fd :: rest =>
    let t1 := fileCloseCall t fd
    let p := closeFilesFrom t1 rest
    (p.1, Ev.fileClose fd :: p.2)

/-- `Task.kill` (`src/Tasks.py:242-282`): set status to `TaskKill`; kill every
thread iterating a reversed copy of the thread list; close every open file
iterating a reversed copy of the open-file list; deallocate the page table;
remove the swap file from the swap directory (`self.__swapDirFile.rm(self.__swapFile)`).
The base-class call `SimTask.kill(self)` has no Task-local effect.  Returns the
final task state and the trace of teardown events in order. -/
def Task.kill (t : Task) : Task × List Ev :=
  let t0 := { t with status := TaskStatus.TaskKill }
  let p1 := killThreadsFrom t0 t0.threadsList.reverse
  let p2 := closeFilesFrom p1.1 p1.1.openFileDescriptor.reverse
  (p2.1, p1.2 ++ p2.2 ++ [Ev.deallocPages, Ev.swapRm t.swapFile])

/-- Modelled from the spec: the collaborator state outside the Task instance
(`Globals` mode, CPU registers, the `SimTask` registry are not under `src/`).
`numTasks` is the live-task count (`SimTask.getNumTasks`), `registeredIds` the
live-task table (`SimTask.registerTask`), `nextUniqueId` the registry's fresh-id
source (`SimTask.getUniqueTaskId`), `reg6User` the value of CPU register 6 (the
requesting user on create), `reg1Task` the value of CPU register 1 (the kill
target), `rescheduleNeeded` the scheduler flag. -/
structure SysState where
  mode : Mode
  numTasks : Nat
  registeredIds : List Nat
  rescheduleNeeded : Bool
  reg6User : Nat
  nextUniqueId : Nat
  reg1Task : Option Task
deriving DecidableEq

/-- The message of the `AssertionError` raised when the privileged-mode
assertion at the top of `Task.create` / `Task.killTask` fails. -/
def assertionMsg : String :=
  "AssertionError: Globals.getMode() == Globals.PrivilegedMode"

/-- `Task.create` (`src/Tasks.py:161-213`): assert privileged mode; if the
live-task count is below the configured maximum, read the user from CPU
register 6, obtain a fresh unique id, construct the task, register it,
spawn its first thread, set its status to `TaskReady`, restore user mode and
return the task; otherwise restore user mode and return `None`.  `swapFd` is
the descriptor the file system hands the constructor. -/
def Task.create (g : GlobalsCfg) (s : SysState) (nonPreemptive : Bool) (swapFd : Nat) :
    Except String (Option Task × SysState) :=
  if s.mode = Mode.privileged then
    if s.numTasks < g.maxNumTasks then
      let user := s.reg6User
      let uniqueid := s.nextUniqueId
      let newTask := Task.init uniqueid user nonPreemptive swapFd
      let s1 := { s with
        numTasks := s.numTasks + 1
        registeredIds := s.registeredIds ++ [uniqueid] }
      let p := Task.spawn g newTask
      let t2 := { p.1 with status := TaskStatus.TaskReady }
      let s2 := { s1 with
        rescheduleNeeded := s1.rescheduleNeeded || p.2
        mode := Mode.user }
      Except.ok (some t2, s2)
    else
      Except.ok (none, { s with mode := Mode.user })
  else
    Except.error assertionMsg

/-- `Task.killTask` (`src/Tasks.py:215-240`): assert privileged mode; read the
target task from CPU register 1; if it is not `None`, kill it; restore user
mode unconditionally afterward. -/
def Task.killTask (s : SysState) : Except String (SysState × List Ev) :=
  if s.mode = Mode.privileged then
    match s.reg1Task with
    | some t =>
      let p := Task.kill t
      Except.ok ({ s with mode := Mode.user, reg1Task := some p.1 }, p.2)
    | none => Except.ok ({ s with mode := Mode.user }, [])
  else
    Except.error assertionMsg

/-- The Task-instance operations reachable through the public interface, for
stating properties over arbitrary operation sequences. -/
inductive TaskOp where
  | spawnOp (g : GlobalsCfg)
  | addThreadOp (th : Thread)
  | removeThreadOp (th : Thread)
  | killOp
  | setActiveOp (th : Option Thread)
deriving DecidableEq

/-- Apply one operation to a task (for `spawnOp` and `killOp`, the resulting
task state; for `setActiveOp`, the post-state of the call). -/
def applyOp (op : TaskOp) (t : Task) : Task :=
  match op with
  | TaskOp.spawnOp g => (Task.spawn g t).1
  | TaskOp.addThreadOp th => Task.addThread t th
  | TaskOp.removeThreadOp th => Task.removeThread t th
  | TaskOp.killOp => (Task.kill t).1
  | TaskOp.setActiveOp th => Task.setActiveRun t th

/-- Apply a sequence of operations, left to right. -/
def applyOps (ops : List TaskOp) (t : Task) : Task :=
  ops.foldl (fun u op => applyOp op u) t

/-- Invariant I3 of the spec, as an executable check: the active thread is
either none or a member of the thread collection. -/
def I3chk (t : Task) : Bool :=
  match t.activeThread with
  | none => true
  | some th => decide (th ∈ t.threadsList)

/-- The thread-collection shape maintained by `spawn`: no duplicate threads and
every stored thread id below the next-thread-id counter. -/
def ThreadInv (t : Task) : Prop :=
  t.threadsList.Nodup ∧ ∀ th ∈ t.threadsList, th.id < t.nextThreadNum

/-- Recognizes a direct `addThread` operation. -/
def isAddThreadOp : TaskOp → Bool
  | TaskOp.addThreadOp _ => true
  | _ => false

/-- Recognizes a `spawn` operation. -/
def isSpawnOp : TaskOp → Bool
  | TaskOp.spawnOp _ => true
  | _ => false

/-- A generous configuration (10 tasks, 10 threads) for concrete runs. -/
def gW : GlobalsCfg :=
  { maxNumTasks := 10, maxNumThreads := 10 }

/-- A configuration whose maximum thread count (1) is smaller than its maximum
task count (10); exposes the guard of `Task.spawn` reading the wrong constant. -/
def gBugCfg : GlobalsCfg :=
  { maxNumTasks := 10, maxNumThreads := 1 }

/-- A freshly constructed task (id 0, user 0, preemptive, swap descriptor 0). -/
def tFresh : Task :=
  Task.init 0 0 false 0

/-- A task that has already spawned one thread under `gBugCfg`: its thread
count equals the configured maximum thread count of 1. -/
def tBug : Task :=
  (Task.spawn gBugCfg (Task.init 3 0 false 9)).1

/-- A concrete task with two threads and two open files, the first thread
active, for exercising the teardown path. -/
def tSample : Task :=
  { id := 1
    user := 4
    status := TaskStatus.TaskReady
    nonPreemptive := false
    priority := 0
    threadsList := [{ id := 0, nonPreemptive := false }, { id := 1, nonPreemptive := false }]
    nextThreadNum := 2
    openFileDescriptor := [7, 8]
    activeThread := some { id := 0, nonPreemptive := false }
    swapFile := 7 }

/-- A concrete collaborator state in privileged mode, below task capacity. -/
def sPriv : SysState :=
  { mode := Mode.privileged
    numTasks := 3
    registeredIds := [0, 1, 2]
    rescheduleNeeded := false
    reg6User := 42
    nextUniqueId := 5
    reg1Task := some tSample }

/-- The same collaborator state in user (non-privileged) mode. -/
def sUser : SysState :=
  { sPriv with mode := Mode.user }

/-- The same collaborator state at the configured task capacity of `gW`. -/
def sFull : SysState :=
  { sPriv with numTasks := 10 }

end Tasks

namespace Tasks

theorem removeThread_threadsList (t : Task) (th : Thread) :
    (Task.removeThread t th).threadsList = t.threadsList.erase th := by
  unfold Task.removeThread
  split <;> rfl

theorem removeThread_openFileDescriptor (t : Task) (th : Thread) :
    (Task.removeThread t th).openFileDescriptor = t.openFileDescriptor := by
  unfold Task.removeThread
  split <;> rfl

theorem removeThread_status (t : Task) (th : Thread) :
    (Task.removeThread t th).status = t.status := by
  unfold Task.removeThread
  split <;> rfl

theorem removeThread_nextThreadNum (t : Task) (th : Thread) :
    (Task.removeThread t th).nextThreadNum = t.nextThreadNum := by
  unfold Task.removeThread
  split <;> rfl

theorem killThreadsFrom_eq (l : List Thread) (t : Task) :
    killThreadsFrom t l = (l.foldl threadKillCall t, l.map Ev.threadKill) := by
  induction l generalizing t with
  | nil => rfl
  | cons th rest ih =>
    simp [killThreadsFrom, ih, List.foldl_cons]

theorem closeFilesFrom_eq (l : List Nat) (t : Task) :
    closeFilesFrom t l = (l.foldl fileCloseCall t, l.map Ev.fileClose) := by
  induction l generalizing t with
  | nil => rfl
  | cons fd rest ih =>
    simp [closeFilesFrom, ih, List.foldl_cons]

theorem foldl_threadKill_threadsList (l : List Thread) (t : Task) :
    (l.foldl threadKillCall t).threadsList = l.foldl List.erase t.threadsList := by
  induction l generalizing t with
  | nil => rfl
  | cons th rest ih =>
    simp [List.foldl_cons, ih, threadKillCall, removeThread_threadsList]

theorem foldl_threadKill_openFileDescriptor (l : List Thread) (t : Task) :
    (l.foldl threadKillCall t).openFileDescriptor = t.openFileDescriptor := by
  induction l generalizing t with
  | nil => rfl
  | cons th rest ih =>
    simp [List.foldl_cons, ih, threadKillCall, removeThread_openFileDescriptor]

theorem foldl_threadKill_status (l : List Thread) (t : Task) :
    (l.foldl threadKillCall t).status = t.status := by
  induction l generalizing t with
  | nil => rfl
  | cons th rest ih =>
    simp [List.foldl_cons, ih, threadKillCall, removeThread_status]

theorem foldl_threadKill_nextThreadNum (l : List Thread) (t : Task) :
    (l.foldl threadKillCall t).nextThreadNum = t.nextThreadNum := by
  induction l generalizing t with
  | nil => rfl
  | cons th rest ih =>
    simp [List.foldl_cons, ih, threadKillCall, removeThread_nextThreadNum]

theorem foldl_fileClose_openFileDescriptor (l : List Nat) (t : Task) :
    (l.foldl fileCloseCall t).openFileDescriptor = l.foldl List.erase t.openFileDescriptor := by
  induction l generalizing t with
  | nil => rfl
  | cons fd rest ih =>
    simp [List.foldl_cons, ih, fileCloseCall, Task.removeOpenFile]

theorem foldl_fileClose_threadsList (l : List Nat) (t : Task) :
    (l.foldl fileCloseCall t).threadsList = t.threadsList := by
  induction l generalizing t with
  | nil => rfl
  | cons fd rest ih =>
    simp [List.foldl_cons, ih, fileCloseCall, Task.removeOpenFile]

theorem foldl_fileClose_status (l : List Nat) (t : Task) :
    (l.foldl fileCloseCall t).status = t.status := by
  induction l generalizing t with
  | nil => rfl
  | cons fd rest ih =>
    simp [List.foldl_cons, ih, fileCloseCall, Task.removeOpenFile]

theorem foldl_fileClose_nextThreadNum (l : List Nat) (t : Task) :
    (l.foldl fileCloseCall t).nextThreadNum = t.nextThreadNum := by
  induction l generalizing t with
  | nil => rfl
  | cons fd rest ih =>
    simp [List.foldl_cons, ih, fileCloseCall, Task.removeOpenFile]

theorem foldl_erase_reverse {α : Type} [DecidableEq α] (l : List α) (h : l.Nodup) :
    l.reverse.foldl List.erase l = [] := by
  induction l using List.reverseRecOn with
  | nil => rfl
  | append_singleton l a ih =>
    have hrev : (l ++ [a]).reverse = a :: l.reverse := by
      simp
    have hnotmem : a ∉ l := by
      have := (List.nodup_append.mp h).2.2
      intro hmem
      exact this hmem (List.mem_singleton.mpr rfl)
    have hnodup : l.Nodup := (List.nodup_append.mp h).1
    rw [hrev, List.foldl_cons]
    have herase : (l ++ [a]).erase a = l := by
      rw [List.erase_append_right _ hnotmem]
      simp
    rw [herase]
    exact ih hnodup

theorem foldl_erase_sublist {α : Type} [DecidableEq α] (l₂ : List α) (l : List α) :
    (l₂.foldl List.erase l).Sublist l := by
  induction l₂ generalizing l with
  | nil => exact List.Sublist.refl l
  | cons a rest ih =>
    rw [List.foldl_cons]
    exact (ih (l.erase a)).trans (List.erase_sublist a l)

end Tasks

namespace Tasks

theorem threadKill_injective : Function.Injective Ev.threadKill := by
  intro a b h
  injection h

theorem fileClose_injective : Function.Injective Ev.fileClose := by
  intro a b h
  injection h

theorem kill_fst_status (t : Task) :
    (Task.kill t).1.status = TaskStatus.TaskKill := by
  unfold Task.kill
  simp only [killThreadsFrom_eq, closeFilesFrom_eq]
  rw [foldl_fileClose_status, foldl_threadKill_status]

theorem kill_fst_nextThreadNum (t : Task) :
    (Task.kill t).1.nextThreadNum = t.nextThreadNum := by
  unfold Task.kill
  simp only [killThreadsFrom_eq, closeFilesFrom_eq]
  rw [foldl_fileClose_nextThreadNum, foldl_threadKill_nextThreadNum]

theorem kill_fst_threadsList (t : Task) :
    (Task.kill t).1.threadsList =
      t.threadsList.reverse.foldl List.erase t.threadsList := by
  unfold Task.kill
  simp only [killThreadsFrom_eq, closeFilesFrom_eq]
  rw [foldl_fileClose_threadsList, foldl_threadKill_threadsList]

theorem kill_fst_threadsList_nil (t : Task) (hT : t.threadsList.Nodup) :
    (Task.kill t).1.threadsList = [] := by
  rw [kill_fst_threadsList]
  exact foldl_erase_reverse t.threadsList hT

theorem kill_fst_openFileDescriptor (t : Task) :
    (Task.kill t).1.openFileDescriptor =
      t.openFileDescriptor.reverse.foldl List.erase t.openFileDescriptor := by
  unfold Task.kill
  simp only [killThreadsFrom_eq, closeFilesFrom_eq]
  rw [foldl_fileClose_openFileDescriptor, foldl_threadKill_openFileDescriptor]

theorem kill_fst_openFileDescriptor_nil (t : Task) (hF : t.openFileDescriptor.Nodup) :
    (Task.kill t).1.openFileDescriptor = [] := by
  rw [kill_fst_openFileDescriptor]
  exact foldl_erase_reverse t.openFileDescriptor hF

theorem kill_snd (t : Task) :
    (Task.kill t).2 =
      t.threadsList.reverse.map Ev.threadKill ++
      t.openFileDescriptor.reverse.map Ev.fileClose ++
      [Ev.deallocPages, Ev.swapRm t.swapFile] := by
  unfold Task.kill
  simp only [killThreadsFrom_eq, closeFilesFrom_eq]
  rw [foldl_threadKill_openFileDescriptor]

end Tasks

namespace Tasks

/-- C1: invoking `kill` on a task with N threads and M open files marks the task
`TaskKill` and then, in order, kills each thread exactly once iterating the
thread collection in reverse creation order, closes each open file exactly once
iterating the open-file collection in reverse, deallocates the page table
exactly once and removes the swap file's directory entry exactly once; the
self-deregistration performed by each thread kill and file close skips,
revisits and duplicates nothing, and both collections end empty. -/
theorem C1_kill_teardown (t : Task)
    (hT : t.threadsList.Nodup) (hF : t.openFileDescriptor.Nodup) :
    (Task.kill t).1.status = TaskStatus.TaskKill ∧
    (Task.kill t).1.threadsList = [] ∧
    (Task.kill t).1.openFileDescriptor = [] ∧
    (Task.kill t).2 =
      t.threadsList.reverse.map Ev.threadKill ++
      t.openFileDescriptor.reverse.map Ev.fileClose ++
      [Ev.deallocPages, Ev.swapRm t.swapFile] ∧
    (∀ th ∈ t.threadsList, List.count (Ev.threadKill th) (Task.kill t).2 = 1) ∧
    (∀ fd ∈ t.openFileDescriptor, List.count (Ev.fileClose fd) (Task.kill t).2 = 1) ∧
    List.count Ev.deallocPages (Task.kill t).2 = 1 ∧
    List.count (Ev.swapRm t.swapFile) (Task.kill t).2 = 1 := by
  refine ⟨kill_fst_status t, kill_fst_threadsList_nil t hT,
    kill_fst_openFileDescriptor_nil t hF, kill_snd t, ?_, ?_, ?_, ?_⟩
  · intro th hmem
    rw [kill_snd, List.count_append, List.count_append]
    have h1 : List.count (Ev.threadKill th) (t.threadsList.reverse.map Ev.threadKill) = 1 := by
      rw [List.count_map_of_injective _ _ threadKill_injective, List.count_reverse]
      exact List.count_eq_one_of_mem hT hmem
    have h2 : List.count (Ev.threadKill th) (t.openFileDescriptor.reverse.map Ev.fileClose) = 0 := by
      rw [List.count_eq_zero]
      simp
    have h3 : List.count (Ev.threadKill th) [Ev.deallocPages, Ev.swapRm t.swapFile] = 0 := by
      rw [List.count_eq_zero]
      simp
    rw [h1, h2, h3]
  · intro fd hmem
    rw [kill_snd, List.count_append, List.count_append]
    have h1 : List.count (Ev.fileClose fd) (t.threadsList.reverse.map Ev.threadKill) = 0 := by
      rw [List.count_eq_zero]
      simp
    have h2 : List.count (Ev.fileClose fd) (t.openFileDescriptor.reverse.map Ev.fileClose) = 1 := by
      rw [List.count_map_of_injective _ _ fileClose_injective, List.count_reverse]
      exact List.count_eq_one_of_mem hF hmem
    have h3 : List.count (Ev.fileClose fd) [Ev.deallocPages, Ev.swapRm t.swapFile] = 0 := by
      rw [List.count_eq_zero]
      simp
    rw [h1, h2, h3]
  · rw [kill_snd, List.count_append, List.count_append]
    have h1 : List.count Ev.deallocPages (t.threadsList.reverse.map Ev.threadKill) = 0 := by
      rw [List.count_eq_zero]
      simp
    have h2 : List.count Ev.deallocPages (t.openFileDescriptor.reverse.map Ev.fileClose) = 0 := by
      rw [List.count_eq_zero]
      simp
    have h3 : List.count Ev.deallocPages [Ev.deallocPages, Ev.swapRm t.swapFile] = 1 := by
      simp [List.count_cons]
    rw [h1, h2, h3]
  · rw [kill_snd, List.count_append, List.count_append]
    have h1 : List.count (Ev.swapRm t.swapFile) (t.threadsList.reverse.map Ev.threadKill) = 0 := by
      rw [List.count_eq_zero]
      simp
    have h2 : List.count (Ev.swapRm t.swapFile) (t.openFileDescriptor.reverse.map Ev.fileClose) = 0 := by
      rw [List.count_eq_zero]
      simp
    have h3 : List.count (Ev.swapRm t.swapFile) [Ev.deallocPages, Ev.swapRm t.swapFile] = 1 := by
      simp [List.count_cons]
    rw [h1, h2, h3]

/-- Witness for C1: the teardown property evaluated on the concrete two-thread,
two-file task `tSample`. -/
theorem C1_kill_teardown_witness :
    tSample.threadsList.Nodup ∧ tSample.openFileDescriptor.Nodup ∧
    (Task.kill tSample).1.status = TaskStatus.TaskKill ∧
    (Task.kill tSample).1.threadsList = [] ∧
    (Task.kill tSample).1.openFileDescriptor = [] ∧
    (Task.kill tSample).2 =
      tSample.threadsList.reverse.map Ev.threadKill ++
      tSample.openFileDescriptor.reverse.map Ev.fileClose ++
      [Ev.deallocPages, Ev.swapRm tSample.swapFile] ∧
    List.count (Ev.threadKill { id := 0, nonPreemptive := false }) (Task.kill tSample).2 = 1 ∧
    List.count (Ev.threadKill { id := 1, nonPreemptive := false }) (Task.kill tSample).2 = 1 ∧
    List.count (Ev.fileClose 7) (Task.kill tSample).2 = 1 ∧
    List.count (Ev.fileClose 8) (Task.kill tSample).2 = 1 ∧
    List.count Ev.deallocPages (Task.kill tSample).2 = 1 ∧
    List.count (Ev.swapRm tSample.swapFile) (Task.kill tSample).2 = 1 :=
  ⟨by decide, by decide,
    (C1_kill_teardown tSample (by decide) (by decide)).1,
    (C1_kill_teardown tSample (by decide) (by decide)).2.1,
    (C1_kill_teardown tSample (by decide) (by decide)).2.2.1,
    (C1_kill_teardown tSample (by decide) (by decide)).2.2.2.1,
    (C1_kill_teardown tSample (by decide) (by decide)).2.2.2.2.1 _ (by decide),
    (C1_kill_teardown tSample (by decide) (by decide)).2.2.2.2.1 _ (by decide),
    (C1_kill_teardown tSample (by decide) (by decide)).2.2.2.2.2.1 _ (by decide),
    (C1_kill_teardown tSample (by decide) (by decide)).2.2.2.2.2.1 _ (by decide),
    (C1_kill_teardown tSample (by decide) (by decide)).2.2.2.2.2.2.1,
    (C1_kill_teardown tSample (by decide) (by decide)).2.2.2.2.2.2.2⟩

end Tasks

namespace Tasks

/-- C2: a `create` system call in privileged mode with `nonPreemptive=false`
below task capacity returns a task with status `TaskReady`, exactly one thread
whose id is 0, priority 0; the user is read from CPU register 6, the id is the
registry's fresh unique id, the task is registered, and the mode is restored to
user mode. -/
theorem C2_create_ready (g : GlobalsCfg) (s : SysState) (swapFd : Nat)
    (hmode : s.mode = Mode.privileged) (hcap : s.numTasks < g.maxNumTasks) :
    Task.create g s false swapFd =
      Except.ok (some
        { id := s.nextUniqueId
          user := s.reg6User
          status := TaskStatus.TaskReady
          nonPreemptive := false
          priority := 0
          threadsList := [{ id := 0, nonPreemptive := false }]
          nextThreadNum := 1
          openFileDescriptor := [swapFd]
          activeThread := none
          swapFile := swapFd },
        { s with
          numTasks := s.numTasks + 1
          registeredIds := s.registeredIds ++ [s.nextUniqueId]
          rescheduleNeeded := s.rescheduleNeeded || true
          mode := Mode.user }) := by
  have h0 : Task.getNumThreads (Task.init s.nextUniqueId s.reg6User false swapFd) <
      g.maxNumTasks := Nat.lt_of_le_of_lt (Nat.zero_le _) hcap
  unfold Task.create
  rw [hmode, if_pos rfl, if_pos hcap]
  simp only [Task.spawn]
  rw [if_pos h0]
  rfl

/-- Witness for C2 at the concrete privileged state `sPriv` and configuration `gW`. -/
theorem C2_create_ready_witness :
    sPriv.mode = Mode.privileged ∧ sPriv.numTasks < gW.maxNumTasks ∧
    Task.create gW sPriv false 0 =
      Except.ok (some
        { id := sPriv.nextUniqueId
          user := sPriv.reg6User
          status := TaskStatus.TaskReady
          nonPreemptive := false
          priority := 0
          threadsList := [{ id := 0, nonPreemptive := false }]
          nextThreadNum := 1
          openFileDescriptor := [0]
          activeThread := none
          swapFile := 0 },
        { sPriv with
          numTasks := sPriv.numTasks + 1
          registeredIds := sPriv.registeredIds ++ [sPriv.nextUniqueId]
          rescheduleNeeded := sPriv.rescheduleNeeded || true
          mode := Mode.user }) :=
  ⟨rfl, by decide, C2_create_ready gW sPriv 0 rfl (by decide)⟩

/-- C7: a `create` system call in privileged mode at task capacity restores user
mode and returns `None` without registering or allocating anything and without
raising an exception — the returned state differs from the input state only in
the mode field. -/
theorem C7_create_at_capacity (g : GlobalsCfg) (s : SysState) (np : Bool) (swapFd : Nat)
    (hmode : s.mode = Mode.privileged) (hcap : ¬ s.numTasks < g.maxNumTasks) :
    Task.create g s np swapFd = Except.ok (none, { s with mode := Mode.user }) := by
  unfold Task.create
  rw [hmode]
  simp [hcap]

/-- Witness for C7 at the concrete at-capacity state `sFull`. -/
theorem C7_create_at_capacity_witness :
    sFull.mode = Mode.privileged ∧ ¬ sFull.numTasks < gW.maxNumTasks ∧
    Task.create gW sFull true 0 = Except.ok (none, { sFull with mode := Mode.user }) :=
  ⟨rfl, by decide, C7_create_at_capacity gW sFull true 0 rfl (by decide)⟩

/-- C8: the `create` and `killTask` entry points refuse to run outside
privileged mode with an assertion failure, before any task state is read or
mutated (the failure carries no state change); in privileged mode the assertion
branch is unreachable and both calls complete without an assertion failure. -/
theorem C8_privilege_gate (g : GlobalsCfg) (s : SysState) (np : Bool) (swapFd : Nat) :
    (s.mode ≠ Mode.privileged →
      Task.create g s np swapFd = Except.error assertionMsg ∧
      Task.killTask s = Except.error assertionMsg) ∧
    (s.mode = Mode.privileged →
      (Task.create g s np swapFd).isOk = true ∧
      (Task.killTask s).isOk = true) := by
  constructor
  · intro h
    constructor
    · unfold Task.create
      rw [if_neg h]
    · unfold Task.killTask
      rw [if_neg h]
  · intro h
    constructor
    · unfold Task.create
      rw [if_pos h]
      by_cases hc : s.numTasks < g.maxNumTasks
      · rw [if_pos hc]
        rfl
      · rw [if_neg hc]
        rfl
    · unfold Task.killTask
      rw [if_pos h]
      rcases hq : s.reg1Task with _ | t
      · rfl
      · rfl

/-- Witness for C8: the non-privileged state `sUser` is refused and the
privileged state `sPriv` is served, for both entry points. -/
theorem C8_privilege_gate_witness :
    (sUser.mode ≠ Mode.privileged ∧
      Task.create gW sUser false 0 = Except.error assertionMsg ∧
      Task.killTask sUser = Except.error assertionMsg) ∧
    (sPriv.mode = Mode.privileged ∧
      (Task.create gW sPriv false 0).isOk = true ∧
      (Task.killTask sPriv).isOk = true) :=
  ⟨⟨by decide,
      ((C8_privilege_gate gW sUser false 0).1 (by decide)).1,
      ((C8_privilege_gate gW sUser false 0).1 (by decide)).2⟩,
    ⟨rfl,
      ((C8_privilege_gate gW sPriv false 0).2 rfl).1,
      ((C8_privilege_gate gW sPriv false 0).2 rfl).2⟩⟩

end Tasks

namespace Tasks

theorem removeThread_activeThread (t : Task) (th : Thread) :
    (Task.removeThread t th).activeThread =
      if t.activeThread = some th then none else t.activeThread := by
  by_cases h : t.activeThread = some th <;> simp [Task.removeThread, h]

theorem setActiveRun_none (t : Task) :
    Task.setActiveRun t none = { t with activeThread := none } :=
  rfl

theorem setActiveRun_mem (t : Task) (th : Thread) (h : th ∈ t.threadsList) :
    Task.setActiveRun t (some th) = { t with activeThread := some th } := by
  simp [Task.setActiveRun, Task.setActiveThread, h]

theorem setActiveRun_not_mem (t : Task) (th : Thread) (h : th ∉ t.threadsList) :
    Task.setActiveRun t (some th) = t := by
  simp [Task.setActiveRun, Task.setActiveThread, h]

theorem setActiveRun_threadsList (t : Task) (o : Option Thread) :
    (Task.setActiveRun t o).threadsList = t.threadsList := by
  rcases o with _ | th
  · rfl
  · by_cases h : th ∈ t.threadsList
    · rw [setActiveRun_mem t th h]
    · rw [setActiveRun_not_mem t th h]

theorem setActiveRun_nextThreadNum (t : Task) (o : Option Thread) :
    (Task.setActiveRun t o).nextThreadNum = t.nextThreadNum := by
  rcases o with _ | th
  · rfl
  · by_cases h : th ∈ t.threadsList
    · rw [setActiveRun_mem t th h]
    · rw [setActiveRun_not_mem t th h]

theorem spawn_success_eq (g : GlobalsCfg) (t : Task)
    (h : Task.getNumThreads t < g.maxNumTasks) :
    Task.spawn g t =
      ({ t with
          threadsList :=
            t.threadsList ++ [{ id := t.nextThreadNum, nonPreemptive := t.nonPreemptive }]
          nextThreadNum := t.nextThreadNum + 1 }, true) := by
  unfold Task.spawn
  rw [if_pos h]
  rfl

theorem spawn_fail_eq (g : GlobalsCfg) (t : Task)
    (h : ¬ Task.getNumThreads t < g.maxNumTasks) :
    Task.spawn g t = (t, false) := by
  unfold Task.spawn
  rw [if_neg h]

theorem I3chk_eq_true_iff (t : Task) :
    I3chk t = true ↔ ∀ th, t.activeThread = some th → th ∈ t.threadsList := by
  unfold I3chk
  cases h : t.activeThread with
  | none => simp
  | some th => simp

theorem applyOp_nextThreadNum_mono (op : TaskOp) (t : Task) :
    t.nextThreadNum ≤ (applyOp op t).nextThreadNum := by
  cases op with
  | spawnOp g =>
    by_cases h : Task.getNumThreads t < g.maxNumTasks
    · simp only [applyOp, spawn_success_eq g t h]
      exact Nat.le_succ _
    · simp only [applyOp, spawn_fail_eq g t h]
      exact Nat.le_refl _
  | addThreadOp th => exact Nat.le_refl _
  | removeThreadOp th =>
    simp only [applyOp, removeThread_nextThreadNum]
    exact Nat.le_refl _
  | killOp =>
    simp only [applyOp, kill_fst_nextThreadNum]
    exact Nat.le_refl _
  | setActiveOp o =>
    simp only [applyOp, setActiveRun_nextThreadNum]
    exact Nat.le_refl _

theorem applyOps_nextThreadNum_mono (ops : List TaskOp) (t : Task) :
    t.nextThreadNum ≤ (applyOps ops t).nextThreadNum := by
  induction ops generalizing t with
  | nil => exact Nat.le_refl _
  | cons op rest ih =>
    exact le_trans (applyOp_nextThreadNum_mono op t) (ih (applyOp op t))

end Tasks

namespace Tasks

/-- C3 (code evidence): the guard of `Task.spawn` compares the thread-id counter
with the configured maximum number of TASKS (`Globals.getMaxNumTasks()`), not
the maximum thread count.  On `tBug` the thread count already equals the
configured maximum thread count (1) of `gBugCfg`, yet `spawn` still appends a
second thread, increments the counter and raises the reschedule flag. -/
theorem C3_spawn_guard_uses_maxNumTasks :
    Task.getNumThreads tBug = gBugCfg.maxNumThreads ∧
    gBugCfg.maxNumThreads < gBugCfg.maxNumTasks ∧
    (Task.spawn gBugCfg tBug).1.threadsList.length = tBug.threadsList.length + 1 ∧
    (Task.spawn gBugCfg tBug).1.nextThreadNum = tBug.nextThreadNum + 1 ∧
    (Task.spawn gBugCfg tBug).2 = true := by
  decide

/-- C4: a successful `spawn` assigns id `nextThreadNum` (inheriting the task's
non-preemptive flag) and bumps the counter; no public operation (spawn,
addThread, removeThread, kill, setActiveThread) ever decreases the counter; so
after any sequence of operations a later successful `spawn` assigns an id
strictly greater than the one assigned first — ids are strictly increasing and
never reused. -/
theorem C4_thread_ids_strictly_increase (g g1 : GlobalsCfg) (t : Task)
    (ops : List TaskOp) (h1 : Task.getNumThreads t < g.maxNumTasks) :
    (Task.spawn g t).1.threadsList =
      t.threadsList ++ [{ id := t.nextThreadNum, nonPreemptive := t.nonPreemptive }] ∧
    (Task.spawn g t).1.nextThreadNum = t.nextThreadNum + 1 ∧
    (∀ op u, u.nextThreadNum ≤ (applyOp op u).nextThreadNum) ∧
    t.nextThreadNum < (applyOps ops (Task.spawn g t).1).nextThreadNum ∧
    (Task.getNumThreads (applyOps ops (Task.spawn g t).1) < g1.maxNumTasks →
      (Task.spawn g1 (applyOps ops (Task.spawn g t).1)).1.threadsList =
        (applyOps ops (Task.spawn g t).1).threadsList ++
          [{ id := (applyOps ops (Task.spawn g t).1).nextThreadNum,
             nonPreemptive := (applyOps ops (Task.spawn g t).1).nonPreemptive }]) := by
  refine ⟨?_, ?_, applyOp_nextThreadNum_mono, ?_, ?_⟩
  · rw [spawn_success_eq g t h1]
  · rw [spawn_success_eq g t h1]
  · calc t.nextThreadNum < t.nextThreadNum + 1 := Nat.lt_succ_self _
      _ = (Task.spawn g t).1.nextThreadNum := by rw [spawn_success_eq g t h1]
      _ ≤ _ := applyOps_nextThreadNum_mono ops _
  · intro h2
    rw [spawn_success_eq g1 _ h2]

/-- Witness for C4 at `tFresh` under `gW`, with an intervening thread removal. -/
theorem C4_thread_ids_strictly_increase_witness :
    Task.getNumThreads tFresh < gW.maxNumTasks ∧
    (Task.spawn gW tFresh).1.threadsList =
      tFresh.threadsList ++
        [{ id := tFresh.nextThreadNum, nonPreemptive := tFresh.nonPreemptive }] ∧
    (Task.spawn gW tFresh).1.nextThreadNum = tFresh.nextThreadNum + 1 ∧
    tFresh.nextThreadNum ≤ (applyOp TaskOp.killOp tFresh).nextThreadNum ∧
    tFresh.nextThreadNum <
      (applyOps [TaskOp.removeThreadOp { id := 0, nonPreemptive := false }]
        (Task.spawn gW tFresh).1).nextThreadNum ∧
    Task.getNumThreads
        (applyOps [TaskOp.removeThreadOp { id := 0, nonPreemptive := false }]
          (Task.spawn gW tFresh).1) < gW.maxNumTasks ∧
    (Task.spawn gW
        (applyOps [TaskOp.removeThreadOp { id := 0, nonPreemptive := false }]
          (Task.spawn gW tFresh).1)).1.threadsList =
      (applyOps [TaskOp.removeThreadOp { id := 0, nonPreemptive := false }]
        (Task.spawn gW tFresh).1).threadsList ++
        [{ id := (applyOps [TaskOp.removeThreadOp { id := 0, nonPreemptive := false }]
              (Task.spawn gW tFresh).1).nextThreadNum,
           nonPreemptive :=
            (applyOps [TaskOp.removeThreadOp { id := 0, nonPreemptive := false }]
              (Task.spawn gW tFresh).1).nonPreemptive }] :=
  ⟨by decide,
    (C4_thread_ids_strictly_increase gW gW tFresh
      [TaskOp.removeThreadOp { id := 0, nonPreemptive := false }] (by decide)).1,
    (C4_thread_ids_strictly_increase gW gW tFresh
      [TaskOp.removeThreadOp { id := 0, nonPreemptive := false }] (by decide)).2.1,
    (C4_thread_ids_strictly_increase gW gW tFresh
      [TaskOp.removeThreadOp { id := 0, nonPreemptive := false }] (by decide)).2.2.1
      TaskOp.killOp tFresh,
    (C4_thread_ids_strictly_increase gW gW tFresh
      [TaskOp.removeThreadOp { id := 0, nonPreemptive := false }] (by decide)).2.2.2.1,
    by decide,
    (C4_thread_ids_strictly_increase gW gW tFresh
      [TaskOp.removeThreadOp { id := 0, nonPreemptive := false }] (by decide)).2.2.2.2
      (by decide)⟩

/-- C5: the invariant "activeThread is none or a member of the thread
collection" (I3) is preserved by `addThread`, `removeThread` and the post-state
of `setActiveThread`; removing the currently active thread also sets the
active thread to none. -/
theorem C5_I3_preserved (t : Task) (th : Thread) (o : Option Thread)
    (h : I3chk t = true) :
    I3chk (Task.addThread t th) = true ∧
    I3chk (Task.removeThread t th) = true ∧
    I3chk (Task.setActiveRun t o) = true ∧
    (t.activeThread = some th → (Task.removeThread t th).activeThread = none) := by
  rw [I3chk_eq_true_iff] at h
  refine ⟨?_, ?_, ?_, ?_⟩
  · rw [I3chk_eq_true_iff]
    intro a ha
    exact List.mem_append_left _ (h a ha)
  · rw [I3chk_eq_true_iff]
    intro a ha
    rw [removeThread_activeThread] at ha
    rw [removeThread_threadsList]
    by_cases hact : t.activeThread = some th
    · rw [if_pos hact] at ha
      exact absurd ha (by simp)
    · rw [if_neg hact] at ha
      have hne : a ≠ th := by
        intro he
        subst he
        exact hact ha
      exact (List.mem_erase_of_ne hne).mpr (h a ha)
  · rcases o with _ | th1
    · rw [setActiveRun_none, I3chk_eq_true_iff]
      intro a ha
      simp at ha
    · by_cases hm : th1 ∈ t.threadsList
      · rw [setActiveRun_mem t th1 hm, I3chk_eq_true_iff]
        intro a ha
        simp at ha
        exact ha ▸ hm
      · rw [setActiveRun_not_mem t th1 hm, I3chk_eq_true_iff]
        exact h
  · intro hact
    rw [removeThread_activeThread, if_pos hact]

/-- Witness for C5 at `tSample`, whose active thread is the thread with id 0. -/
theorem C5_I3_preserved_witness :
    I3chk tSample = true ∧
    I3chk (Task.addThread tSample { id := 0, nonPreemptive := false }) = true ∧
    I3chk (Task.removeThread tSample { id := 0, nonPreemptive := false }) = true ∧
    I3chk (Task.setActiveRun tSample none) = true ∧
    (Task.removeThread tSample { id := 0, nonPreemptive := false }).activeThread = none :=
  ⟨by decide,
    (C5_I3_preserved tSample { id := 0, nonPreemptive := false } none (by decide)).1,
    (C5_I3_preserved tSample { id := 0, nonPreemptive := false } none (by decide)).2.1,
    (C5_I3_preserved tSample { id := 0, nonPreemptive := false } none (by decide)).2.2.1,
    (C5_I3_preserved tSample { id := 0, nonPreemptive := false } none (by decide)).2.2.2 rfl⟩

/-- C6 (code evidence): `setActiveThread` with none always succeeds and clears
the active thread; with a thread of the task it succeeds; with a non-owned
thread it raises an error whose message identifies the offending thread and
leaves the task unchanged — but the raised class is the builtin `Exception`,
not `SimException` as the method's own docstring promises. -/
theorem C6_setActiveThread_contract (t : Task) (th : Thread) :
    Task.setActiveThread t none = Except.ok { t with activeThread := none } ∧
    (th ∈ t.threadsList →
      Task.setActiveThread t (some th) = Except.ok { t with activeThread := some th }) ∧
    (th ∉ t.threadsList →
      Task.setActiveThread t (some th) =
        Except.error
          { cls := PyCls.exceptionCls
            msg := "SimException: Thread DNE in List: "
            offending := some th } ∧
      Task.setActiveRun t (some th) = t) := by
  refine ⟨rfl, ?_, ?_⟩
  · intro h
    simp [Task.setActiveThread, h]
  · intro h
    constructor
    · simp [Task.setActiveThread, h]
    · exact setActiveRun_not_mem t th h

/-- Witness for C6: at `tSample`, thread id 1 is owned and accepted, thread id 9
is not owned and rejected with a builtin-`Exception`-class error. -/
theorem C6_setActiveThread_contract_witness :
    Task.setActiveThread tSample none = Except.ok { tSample with activeThread := none } ∧
    ({ id := 1, nonPreemptive := false } : Thread) ∈ tSample.threadsList ∧
    Task.setActiveThread tSample (some { id := 1, nonPreemptive := false }) =
      Except.ok { tSample with activeThread := some { id := 1, nonPreemptive := false } } ∧
    ({ id := 9, nonPreemptive := false } : Thread) ∉ tSample.threadsList ∧
    Task.setActiveThread tSample (some { id := 9, nonPreemptive := false }) =
      Except.error
        { cls := PyCls.exceptionCls
          msg := "SimException: Thread DNE in List: "
          offending := some { id := 9, nonPreemptive := false } } ∧
    Task.setActiveRun tSample (some { id := 9, nonPreemptive := false }) = tSample :=
  ⟨(C6_setActiveThread_contract tSample { id := 1, nonPreemptive := false }).1,
    by decide,
    (C6_setActiveThread_contract tSample { id := 1, nonPreemptive := false }).2.1 (by decide),
    by decide,
    ((C6_setActiveThread_contract tSample { id := 9, nonPreemptive := false }).2.2 (by decide)).1,
    ((C6_setActiveThread_contract tSample { id := 9, nonPreemptive := false }).2.2 (by decide)).2⟩

end Tasks

namespace Tasks

theorem ThreadInv_spawn (g : GlobalsCfg) (t : Task) (h : ThreadInv t) :
    ThreadInv (Task.spawn g t).1 := by
  obtain ⟨hnd, hbound⟩ := h
  by_cases hc : Task.getNumThreads t < g.maxNumTasks
  · rw [spawn_success_eq g t hc]
    have hnotmem :
        ({ id := t.nextThreadNum, nonPreemptive := t.nonPreemptive } : Thread) ∉
          t.threadsList := by
      intro hmem
      exact Nat.lt_irrefl _ (hbound _ hmem)
    constructor
    · exact List.Nodup.append hnd (List.nodup_singleton _)
        (by
          intro a ha hb
          rw [List.mem_singleton] at hb
          subst hb
          exact hnotmem ha)
    · intro a hmem
      rcases List.mem_append.mp hmem with hL | hR
      · exact Nat.lt_succ_of_lt (hbound a hL)
      · rw [List.mem_singleton] at hR
        subst hR
        exact Nat.lt_succ_self _
  · rw [spawn_fail_eq g t hc]
    exact ⟨hnd, hbound⟩

theorem ThreadInv_removeThread (t : Task) (th : Thread) (h : ThreadInv t) :
    ThreadInv (Task.removeThread t th) := by
  obtain ⟨hnd, hbound⟩ := h
  constructor
  · rw [removeThread_threadsList]
    exact hnd.erase th
  · intro a hmem
    rw [removeThread_threadsList] at hmem
    rw [removeThread_nextThreadNum]
    exact hbound a (List.mem_of_mem_erase hmem)

theorem ThreadInv_kill (t : Task) (h : ThreadInv t) : ThreadInv (Task.kill t).1 := by
  obtain ⟨hnd, hbound⟩ := h
  constructor
  · rw [kill_fst_threadsList]
    exact (foldl_erase_sublist _ _).nodup hnd
  · intro a hmem
    rw [kill_fst_threadsList] at hmem
    rw [kill_fst_nextThreadNum]
    exact hbound a (List.Sublist.mem hmem (foldl_erase_sublist _ _))

theorem ThreadInv_setActiveRun (t : Task) (o : Option Thread) (h : ThreadInv t) :
    ThreadInv (Task.setActiveRun t o) := by
  obtain ⟨hnd, hbound⟩ := h
  constructor
  · rw [setActiveRun_threadsList]
    exact hnd
  · intro a hmem
    rw [setActiveRun_threadsList] at hmem
    rw [setActiveRun_nextThreadNum]
    exact hbound a hmem

theorem ThreadInv_applyOp (op : TaskOp) (t : Task)
    (hop : isAddThreadOp op = false) (h : ThreadInv t) : ThreadInv (applyOp op t) := by
  cases op with
  | spawnOp g => exact ThreadInv_spawn g t h
  | addThreadOp th => simp [isAddThreadOp] at hop
  | removeThreadOp th => exact ThreadInv_removeThread t th h
  | killOp => exact ThreadInv_kill t h
  | setActiveOp o => exact ThreadInv_setActiveRun t o h

theorem ThreadInv_applyOps (ops : List TaskOp) (t : Task)
    (hops : (ops.all fun op => !isAddThreadOp op) = true)
    (h : ThreadInv t) : ThreadInv (applyOps ops t) := by
  induction ops generalizing t with
  | nil => exact h
  | cons op rest ih =>
    rw [List.all_cons, Bool.and_eq_true] at hops
    have h1 : isAddThreadOp op = false := by
      have := hops.1
      simp at this
      exact this
    exact ih (applyOp op t) hops.2 (ThreadInv_applyOp op t h1 h)

/-- C9 counterexample: `addThread` appends unconditionally, so adding the same
thread twice through the public interface leaves it at two positions of the
thread collection — the collection is not duplicate-free under arbitrary
`addThread` sequences. -/
theorem C9_addThread_duplicates :
    (applyOps [TaskOp.addThreadOp { id := 5, nonPreemptive := false },
        TaskOp.addThreadOp { id := 5, nonPreemptive := false }] tFresh).threadsList =
      [{ id := 5, nonPreemptive := false }, { id := 5, nonPreemptive := false }] ∧
    ¬ (applyOps [TaskOp.addThreadOp { id := 5, nonPreemptive := false },
        TaskOp.addThreadOp { id := 5, nonPreemptive := false }] tFresh).threadsList.Nodup := by
  decide

/-- C9 (amended): for a task whose thread collection is duplicate-free with all
ids below the counter (as constructed), any sequence of public operations that
does not include a direct `addThread` — spawn, removeThread, kill,
setActiveThread — keeps the thread collection duplicate-free. -/
theorem C9_no_duplicates_without_addThread (t : Task) (ops : List TaskOp)
    (hinv : ThreadInv t)
    (hops : (ops.all fun op => !isAddThreadOp op) = true) :
    (applyOps ops t).threadsList.Nodup :=
  (ThreadInv_applyOps ops t hops hinv).1

/-- Witness for C9 (amended): spawn twice then remove the first thread. -/
theorem C9_no_duplicates_without_addThread_witness :
    ThreadInv tFresh ∧
    (([TaskOp.spawnOp gW, TaskOp.spawnOp gW,
        TaskOp.removeThreadOp { id := 0, nonPreemptive := false }].all
      fun op => !isAddThreadOp op) = true) ∧
    (applyOps [TaskOp.spawnOp gW, TaskOp.spawnOp gW,
        TaskOp.removeThreadOp { id := 0, nonPreemptive := false }] tFresh).threadsList.Nodup :=
  ⟨⟨by decide, by decide⟩, by decide,
    C9_no_duplicates_without_addThread tFresh
      [TaskOp.spawnOp gW, TaskOp.spawnOp gW,
        TaskOp.removeThreadOp { id := 0, nonPreemptive := false }]
      ⟨by decide, by decide⟩ (by decide)⟩

theorem spawn_counter_eq_length (g : GlobalsCfg) (t : Task)
    (hinit : t.nextThreadNum = t.threadsList.length) :
    (Task.spawn g t).1.nextThreadNum = (Task.spawn g t).1.threadsList.length := by
  by_cases hc : Task.getNumThreads t < g.maxNumTasks
  · rw [spawn_success_eq g t hc]
    simp [hinit]
  · rw [spawn_fail_eq g t hc]
    exact hinit

theorem spawnOnly_counter_eq_length (ops : List TaskOp) (t : Task)
    (hspawn : (ops.all isSpawnOp) = true)
    (hinit : t.nextThreadNum = t.threadsList.length) :
    (applyOps ops t).nextThreadNum = (applyOps ops t).threadsList.length := by
  induction ops generalizing t with
  | nil => exact hinit
  | cons op rest ih =>
    rw [List.all_cons, Bool.and_eq_true] at hspawn
    obtain ⟨h1, h2⟩ := hspawn
    cases op with
    | spawnOp g =>
      exact ih (applyOp (TaskOp.spawnOp g) t) h2 (spawn_counter_eq_length g t hinit)
    | addThreadOp th => simp [isSpawnOp] at h1
    | removeThreadOp th => simp [isSpawnOp] at h1
    | killOp => simp [isSpawnOp] at h1
    | setActiveOp o => simp [isSpawnOp] at h1

/-- C10 counterexample: after spawn, spawn, removeThread (which shrinks the
collection from 2 to 1) and a direct addThread (not via spawn), the counter
returned by `getNumThreads` (2) again equals the collection's length (2) — so
the counter can equal the length even though a thread was removed and a thread
was added other than via spawn. -/
theorem C10_counter_equals_length_after_mixed_ops :
    Task.getNumThreads
        (applyOps [TaskOp.spawnOp gW, TaskOp.spawnOp gW,
          TaskOp.removeThreadOp { id := 0, nonPreemptive := false },
          TaskOp.addThreadOp { id := 5, nonPreemptive := false }] tFresh) =
      (applyOps [TaskOp.spawnOp gW, TaskOp.spawnOp gW,
          TaskOp.removeThreadOp { id := 0, nonPreemptive := false },
          TaskOp.addThreadOp { id := 5, nonPreemptive := false }] tFresh).threadsList.length ∧
    (applyOps [TaskOp.spawnOp gW, TaskOp.spawnOp gW] tFresh).threadsList.length = 2 ∧
    (applyOps [TaskOp.spawnOp gW, TaskOp.spawnOp gW,
        TaskOp.removeThreadOp { id := 0, nonPreemptive := false }] tFresh).threadsList.length = 1 ∧
    Task.getNumThreads
        (applyOps [TaskOp.spawnOp gW, TaskOp.spawnOp gW,
          TaskOp.removeThreadOp { id := 0, nonPreemptive := false },
          TaskOp.addThreadOp { id := 5, nonPreemptive := false }] tFresh) = 2 := by
  decide

/-- C10 (amended): `getNumThreads` returns the next-thread-id counter (the
number of threads ever spawned), not the collection size; it is unchanged by
`addThread` and `removeThread`, never decreases under any public operation, and
for a task whose counter equals its collection length it again equals the
length after any sequence consisting only of spawns. -/
theorem C10_getNumThreads_is_counter (t : Task) (th : Thread) (ops : List TaskOp)
    (hspawn : (ops.all isSpawnOp) = true)
    (hinit : Task.getNumThreads t = t.threadsList.length) :
    Task.getNumThreads t = t.nextThreadNum ∧
    Task.getNumThreads (Task.addThread t th) = Task.getNumThreads t ∧
    Task.getNumThreads (Task.removeThread t th) = Task.getNumThreads t ∧
    (∀ op u, Task.getNumThreads u ≤ Task.getNumThreads (applyOp op u)) ∧
    Task.getNumThreads (applyOps ops t) = (applyOps ops t).threadsList.length :=
  ⟨rfl, rfl, removeThread_nextThreadNum t th, applyOp_nextThreadNum_mono,
    spawnOnly_counter_eq_length ops t hspawn hinit⟩

/-- Witness for C10 (amended) at `tFresh` with two spawns. -/
theorem C10_getNumThreads_is_counter_witness :
    (([TaskOp.spawnOp gW, TaskOp.spawnOp gW].all isSpawnOp) = true) ∧
    Task.getNumThreads tFresh = tFresh.threadsList.length ∧
    Task.getNumThreads tFresh = tFresh.nextThreadNum ∧
    Task.getNumThreads (Task.addThread tFresh { id := 5, nonPreemptive := false }) =
      Task.getNumThreads tFresh ∧
    Task.getNumThreads (Task.removeThread tFresh { id := 5, nonPreemptive := false }) =
      Task.getNumThreads tFresh ∧
    Task.getNumThreads tFresh ≤ Task.getNumThreads (applyOp TaskOp.killOp tFresh) ∧
    Task.getNumThreads (applyOps [TaskOp.spawnOp gW, TaskOp.spawnOp gW] tFresh) =
      (applyOps [TaskOp.spawnOp gW, TaskOp.spawnOp gW] tFresh).threadsList.length :=
  ⟨by decide, by decide,
    (C10_getNumThreads_is_counter tFresh { id := 5, nonPreemptive := false }
      [TaskOp.spawnOp gW, TaskOp.spawnOp gW] (by decide) (by decide)).1,
    (C10_getNumThreads_is_counter tFresh { id := 5, nonPreemptive := false }
      [TaskOp.spawnOp gW, TaskOp.spawnOp gW] (by decide) (by decide)).2.1,
    (C10_getNumThreads_is_counter tFresh { id := 5, nonPreemptive := false }
      [TaskOp.spawnOp gW, TaskOp.spawnOp gW] (by decide) (by decide)).2.2.1,
    (C10_getNumThreads_is_counter tFresh { id := 5, nonPreemptive := false }
      [TaskOp.spawnOp gW, TaskOp.spawnOp gW] (by decide) (by decide)).2.2.2.1
      TaskOp.killOp tFresh,
    (C10_getNumThreads_is_counter tFresh { id := 5, nonPreemptive := false }
      [TaskOp.spawnOp gW, TaskOp.spawnOp gW] (by decide) (by decide)).2.2.2.2⟩

end Tasks
